import Mathlib

/-!
Verification of the multimodal RAG system's vector-index core and pipeline
(`hnsw_index.py`, `rag_system.py`, `metrics.py`, `config.py`), shallowly
embedded in Lean 4. Numeric values (embedding coordinates, distances,
similarities, wall-clock durations) are modelled as rationals; external
boundary calls (the CLIP encoder, the LLM, the wall clock, the filesystem
metadata of images) are supplied as oracle inputs, mirroring the spec's
"external collaborators" boundary.
-/

namespace RAG

/-- Configuration constants from `config.py`. -/
def HNSW_SPACE : String := "cosine"

def HNSW_EF_CONSTRUCTION : Nat := 200

def HNSW_EF_SEARCH : Nat := 50

def HNSW_M : Nat := 16

def HNSW_MAX_ELEMENTS : Nat := 10000

def TOP_K_RETRIEVAL : Nat := 3

/-- `SIMILARITY_THRESHOLD = 0.2` from `config.py`: the rational one fifth,
written as a reduced fraction literal (`SIMILARITY_THRESHOLD_eq` below checks
it equals `1 / 5`). -/
def SIMILARITY_THRESHOLD : ℚ := ⟨1, 5, by decide, by decide⟩

/-- An opaque metadata record (`Dict[str, Any]` in the source): an ordered
list of string key/value attributes, opaque to the index. -/
def Record := List (String × String)

instance : DecidableEq Record := by
  unfold Record
  infer_instance

instance : Inhabited Record := ⟨([] : List (String × String))⟩

/-- Errors raised by index operations (`hnsw_index.py`). The source signals
them as Python exceptions; here each raising control path is an `Except`
error value. -/
inductive IndexError where
  /-- `ValueError` from `add_items` when `len(embeddings) != len(metadata)`. -/
  | countMismatch
  /-- the `hnswlib` "wrong dimensionality" error from `index.add_items`. -/
  | dimensionMismatch
  /-- the `hnswlib` "number of elements exceeds the specified limit" error. -/
  | capacityExceeded
  /-- `ValueError` from `search` when the index is not built. -/
  | notBuilt
  /-- the `hnswlib` failure of `knn_query` on an index with no elements. -/
  | indexEmpty
  /-- `FileNotFoundError` from `load_index` when a required file is missing. -/
  | notFound
deriving DecidableEq, Repr

/-- The state of one `HNSWIndex` object (`hnsw_index.py`): the wrapped
`hnswlib` native index is modelled by the list of `(id, vector)` pairs it
holds together with its current capacity (`max_elements`). -/
structure HNSWIndex where
  dimension : Nat
  space : String
  /-- contents of the native `hnswlib` index: `(id, embedding)` pairs in
  insertion order. -/
  elements : List (Nat × List ℚ)
  /-- the native index's current capacity (`max_elements`). -/
  maxElements : Nat
  /-- `self.metadata`: the id → record mapping, as an association list in
  insertion order (ids are assigned fresh, so keys never collide). -/
  metadata : List (Nat × Record)
  is_built : Bool
deriving DecidableEq

/-- `HNSWIndex.__init__` / `_create_index`: a fresh index with capacity
`HNSW_MAX_ELEMENTS`, no elements, empty metadata, not built. -/
def HNSWIndex.create (dimension : Nat) (space : String := HNSW_SPACE) : HNSWIndex :=
  { dimension := dimension
    space := space
    elements := []
    maxElements := HNSW_MAX_ELEMENTS
    metadata := []
    is_built := false }

/-- The native `hnswlib` `index.add_items(embeddings, ids)` call: rejects any
embedding whose length differs from the index dimension (before touching the
structure), rejects a batch that would exceed `max_elements`, otherwise
appends the `(id, vector)` pairs. -/
def hnswAddItems (idx : HNSWIndex) (embeddings : List (List ℚ)) (ids : List Nat) :
    Except IndexError HNSWIndex :=
  if embeddings.any (fun e => e.length ≠ idx.dimension) then
    .error .dimensionMismatch
  else if idx.maxElements < idx.elements.length + embeddings.length then
    .error .capacityExceeded
  else
    .ok { idx with elements := idx.elements ++ ids.zip embeddings }

/-- `HNSWIndex.add_items`: checks the embeddings/metadata count match, assigns
ids `len(self.metadata), …, len(self.metadata)+n-1`, adds to the native index,
then (only after that call succeeded) stores the metadata under those ids and
marks the index built. A raising path returns `.error` and, as in the source,
reaches none of the mutations that follow the raise point. -/
def HNSWIndex.add_items (idx : HNSWIndex) (embeddings : List (List ℚ))
    (metadata : List Record) : Except IndexError HNSWIndex :=
  if embeddings.length ≠ metadata.length then
    .error .countMismatch
  else
    let start_id := idx.metadata.length
    let ids := List.range' start_id embeddings.length
    match hnswAddItems idx embeddings ids with
    | .error e => .error e
    | .ok idx' =>
        .ok { idx' with
                metadata := idx.metadata ++ ids.zip metadata
                is_built := true }

/-- The candidate ordering used to rank search hits: ascending distance to the
query, ties broken by smaller id. -/
def searchLE (d : List ℚ → List ℚ → ℚ) (q : List ℚ) (a b : Nat × List ℚ) : Prop :=
  d q a.2 < d q b.2 ∨ (d q a.2 = d q b.2 ∧ a.1 ≤ b.1)

instance (d : List ℚ → List ℚ → ℚ) (q : List ℚ) : DecidableRel (searchLE d q) := by
  intro a b
  unfold searchLE
  infer_instance

instance (d : List ℚ → List ℚ → ℚ) (q : List ℚ) : IsTotal (Nat × List ℚ) (searchLE d q) where
  total a b := by
    unfold searchLE
    rcases lt_trichotomy (d q a.2) (d q b.2) with h | h | h
    · exact Or.inl (Or.inl h)
    · rcases Nat.le_total a.1 b.1 with h' | h'
      · exact Or.inl (Or.inr ⟨h, h'⟩)
      · exact Or.inr (Or.inr ⟨h.symm, h'⟩)
    · exact Or.inr (Or.inl h)

instance (d : List ℚ → List ℚ → ℚ) (q : List ℚ) : IsTrans (Nat × List ℚ) (searchLE d q) where
  trans a b c hab hbc := by
    unfold searchLE at *
    rcases hab with hab | ⟨hab, hab'⟩
    · rcases hbc with hbc | ⟨hbc, _⟩
      · exact Or.inl (hab.trans hbc)
      · exact Or.inl (hbc ▸ hab)
    · rcases hbc with hbc | ⟨hbc, hbc'⟩
      · exact Or.inl (hab ▸ hbc)
      · exact Or.inr ⟨hab.trans hbc, hab'.trans hbc'⟩

/-- Modelled from the spec: the source delegates `knn_query` entirely to the
external `hnswlib` package (not part of this repository); §4.1 specifies the
search contract — fail on an empty index, otherwise return the `k` stored
items closest to the query, ordered by ascending distance with ties broken by
smaller id. The distance metric itself is also external (`hnswlib`'s cosine /
l2 / inner-product kernels), so it is taken as a function parameter `d`. -/
def knn_query (d : List ℚ → List ℚ → ℚ) (idx : HNSWIndex) (query_embedding : List ℚ)
    (k : Nat) : Except IndexError (List Nat × List ℚ) :=
  if idx.elements.isEmpty then
    .error .indexEmpty
  else
    let ranked := (List.insertionSort (searchLE d query_embedding) idx.elements).take k
    .ok (ranked.map Prod.fst, ranked.map (fun p => d query_embedding p.2))

/-- `HNSWIndex.search`: raises if the index is not built, otherwise runs
`knn_query` and returns the flattened label and distance lists. -/
def HNSWIndex.search (idx : HNSWIndex) (d : List ℚ → List ℚ → ℚ)
    (query_embedding : List ℚ) (k : Nat := TOP_K_RETRIEVAL) :
    Except IndexError (List Nat × List ℚ) :=
  if idx.is_built = false then
    .error .notBuilt
  else
    knn_query d idx query_embedding k

/-- `HNSWIndex.get_metadata`: `self.metadata.get(item_id, {})`. -/
def HNSWIndex.get_metadata (idx : HNSWIndex) (item_id : Nat) : Record :=
  match idx.metadata.lookup item_id with
  | some r => r
  | none => []

/-- Distance-to-similarity conversion from `get_search_results`:
`cosine ↦ 1 - d`, `l2 ↦ 1 / (1 + d)`, otherwise (inner product) `d`. -/
def similarityOf (space : String) (distance : ℚ) : ℚ :=
  if space = "cosine" then 1 - distance
  else if space = "l2" then 1 / (1 + distance)
  else distance

/-- One entry of the result list built by `get_search_results`. -/
structure SearchResult where
  id : Nat
  distance : ℚ
  similarity : ℚ
  metadata : Record
deriving DecidableEq

/-- `HNSWIndex.get_search_results`: search, then pair each label with its
metadata, its distance and the converted similarity, in search order. -/
def HNSWIndex.get_search_results (idx : HNSWIndex) (d : List ℚ → List ℚ → ℚ)
    (query_embedding : List ℚ) (k : Nat := TOP_K_RETRIEVAL) :
    Except IndexError (List SearchResult) :=
  match idx.search d query_embedding k with
  | .error e => .error e
  | .ok (labels, distances) =>
      .ok ((labels.zip distances).map (fun ld =>
        { id := ld.1
          distance := ld.2
          similarity := similarityOf idx.space ld.2
          metadata := idx.get_metadata ld.1 }))

/-- The statistics dictionary returned by `HNSWIndex.get_statistics`. Note
that `max_elements` reports the `config.py` constant, not the native index's
current capacity. -/
structure Statistics where
  num_elements : Nat
  dimension : Nat
  space : String
  is_built : Bool
  ef_construction : Nat
  ef_search : Nat
  M : Nat
  max_elements : Nat
deriving DecidableEq

/-- `HNSWIndex.get_statistics`. -/
def HNSWIndex.get_statistics (idx : HNSWIndex) : Statistics :=
  { num_elements := idx.metadata.length
    dimension := idx.dimension
    space := idx.space
    is_built := idx.is_built
    ef_construction := HNSW_EF_CONSTRUCTION
    ef_search := HNSW_EF_SEARCH
    M := HNSW_M
    max_elements := HNSW_MAX_ELEMENTS }

/-- The configuration descriptor written to `{filename}_config.json` by
`save_index`. -/
structure IndexConfig where
  dimension : Nat
  space : String
  num_elements : Nat
  ef_construction : Nat
  ef_search : Nat
  M : Nat
deriving DecidableEq

/-- The three on-disk artifacts of one named index under `INDEX_DIR`:
`{name}.bin` (the native `hnswlib` blob, modelled by the element list it
serializes), `{name}_metadata.pkl`, and `{name}_config.json`. `none` means
the file does not exist. -/
structure DiskState where
  binFile : Option (List (Nat × List ℚ))
  metadataFile : Option (List (Nat × Record))
  configFile : Option IndexConfig
deriving DecidableEq

/-- A disk with none of the three files present. -/
def DiskState.empty : DiskState := ⟨none, none, none⟩

/-- The configuration dictionary `save_index` serializes. -/
def HNSWIndex.configOf (idx : HNSWIndex) : IndexConfig :=
  { dimension := idx.dimension
    space := idx.space
    num_elements := idx.metadata.length
    ef_construction := HNSW_EF_CONSTRUCTION
    ef_search := HNSW_EF_SEARCH
    M := HNSW_M }

/-- `HNSWIndex.save_index` as the sequence of file writes it performs, in
source order: write `{name}.bin`, then `{name}_metadata.pkl`, then
`{name}_config.json`. Each write replaces the target file in place; there is
no staging copy, fsync, or rename in the source. -/
def saveIndexSteps (idx : HNSWIndex) : List (DiskState → DiskState) :=
  [ fun s => { s with binFile := some idx.elements }
  , fun s => { s with metadataFile := some idx.metadata }
  , fun s => { s with configFile := some idx.configOf } ]

/-- The disk state visible after the first `n` writes of a step sequence
(an interruption after step `n` leaves exactly this state). -/
def runWrites (steps : List (DiskState → DiskState)) (n : Nat) (s : DiskState) : DiskState :=
  (steps.take n).foldl (fun st f => f st) s

/-- `HNSWIndex.save_index` run to completion on a disk state. -/
def HNSWIndex.save_index (idx : HNSWIndex) (s : DiskState) : DiskState :=
  runWrites (saveIndexSteps idx) (saveIndexSteps idx).length s

/-- A disk state whose graph blob and metadata blob agree: whenever both
files exist, they carry the same ids in the same order. -/
def DiskState.consistent (s : DiskState) : Bool :=
  match s.binFile, s.metadataFile with
  | some bin, some md => bin.map Prod.fst == md.map Prod.fst
  | _, _ => true

/-- The all-or-nothing visibility property the spec demands of `save`: any
interruption leaves the disk either untouched or holding the complete new
unit. -/
def saveAllOrNothing (idx : HNSWIndex) (s : DiskState) : Prop :=
  ∀ n, runWrites (saveIndexSteps idx) n s = s ∨
       runWrites (saveIndexSteps idx) n s = idx.save_index s

/-- `HNSWIndex.load_index` into a fresh instance: fails with
`FileNotFoundError` unless all three files exist; otherwise takes dimension
and space from the configuration, recreates the index, loads the native blob
with `max_elements=config['num_elements']` (so the loaded capacity is the
persisted element count), loads the metadata, and marks the index built. -/
def HNSWIndex.load_index (s : DiskState) : Except IndexError HNSWIndex :=
  match s.binFile, s.metadataFile, s.configFile with
  | some bin, some md, some cfg =>
      .ok { dimension := cfg.dimension
            space := cfg.space
            elements := bin
            maxElements := cfg.num_elements
            metadata := md
            is_built := true }
  | _, _, _ => .error .notFound

/-- The id-space lockstep invariant of the source: the native index and the
metadata store hold exactly the same ids in the same order. Established by
`HNSWIndex.create` and preserved by every operation. -/
def HNSWIndex.idsAligned (idx : HNSWIndex) : Prop :=
  idx.elements.map Prod.fst = idx.metadata.map Prod.fst

instance (idx : HNSWIndex) : Decidable idx.idsAligned := by
  unfold HNSWIndex.idsAligned
  infer_instance

/-! ## The pipeline (`rag_system.py`) -/

/-- Errors crossing stage boundaries inside `rag_system.py`. Each constructor
corresponds to one raising control path of the source. -/
inductive PipeError where
  /-- `ValueError("Sistema não foi inicializado…")`. -/
  | notInitialized
  /-- `ValueError("Índice não foi construído…")` from `search_images`. -/
  | notBuilt
  /-- `AttributeError` on `self.hnsw_index` being `None`. -/
  | noIndex
  /-- a failure raised by the external CLIP `encode_text` call. -/
  | encodingFailed
  /-- an index error propagated out of `get_search_results`. -/
  | indexErr (e : IndexError)
  /-- a failure raised by the external LLM `generate_batch_responses` call. -/
  | generationFailed
  /-- a failure raised inside `RAGMetrics.record_query_metrics`. -/
  | metricsFailed
deriving DecidableEq, Repr

/-- One response dictionary produced by `MultimodalLLM`. -/
structure Response where
  response : String
  success : Bool
deriving DecidableEq

/-- The external boundary of one `query` call, supplied as data: the
`hnswlib` distance kernel, the CLIP text-encoding outcome, the LLM batch
outcome, whether the metrics recorder's internal work raises, and the
wall-clock durations the `time.time()` calls observe. -/
structure QueryOracle where
  dist : List ℚ → List ℚ → ℚ
  encode_text : Except PipeError (List ℚ)
  generate : List SearchResult → Except PipeError (List Response)
  recordOk : Bool
  tSearch : ℚ
  tLLM : ℚ
  tTotal : ℚ

/-- The state of one `RAGMultimodalSystem` object. The CLIP encoder and LLM
handles carry no state the pipeline reads, so only the index handle, the
initialization flag and whether `self.metrics` is set (`METRICS_ENABLED`)
appear. -/
structure RAGSystem where
  is_initialized : Bool
  hnsw_index : Option HNSWIndex
  metricsEnabled : Bool

/-- `initialize_components`: creates encoder, LLM and a fresh `HNSWIndex`
with the embedding dimension reported by the encoder, then sets
`is_initialized`. -/
def RAGSystem.initialize_components (sys : RAGSystem) (embedding_dim : Nat) : RAGSystem :=
  { sys with
      is_initialized := true
      hnsw_index := some (HNSWIndex.create embedding_dim) }

/-- `search_images` with the similarity threshold `t` it reads from
configuration (`SIMILARITY_THRESHOLD` in `config.py`): check initialization,
check the index is built, encode the query, search with metadata, and keep
exactly the results whose similarity is `≥ t`. -/
def RAGSystem.search_images_at (sys : RAGSystem) (o : QueryOracle) (t : ℚ)
    (k : Nat := TOP_K_RETRIEVAL) : Except PipeError (List SearchResult) :=
  if sys.is_initialized = false then
    .error .notInitialized
  else
    match sys.hnsw_index with
    | none => .error .noIndex
    | some idx =>
        if idx.is_built = false then
          .error .notBuilt
        else
          match o.encode_text with
          | .error _ => .error .encodingFailed
          | .ok query_embedding =>
              match idx.get_search_results o.dist query_embedding k with
              | .error e => .error (.indexErr e)
              | .ok results =>
                  .ok (results.filter (fun r => decide (t ≤ r.similarity)))

/-- `RAGMultimodalSystem.search_images`, with the configured constant
threshold. -/
def RAGSystem.search_images (sys : RAGSystem) (o : QueryOracle)
    (k : Nat := TOP_K_RETRIEVAL) : Except PipeError (List SearchResult) :=
  sys.search_images_at o SIMILARITY_THRESHOLD k

/-- The `timing` sub-dictionary of a query result. The failure dictionary
carries only `total_time`, so the per-stage entries are optional. -/
structure Timing where
  search_time : Option ℚ
  llm_time : Option ℚ
  total_time : ℚ
deriving DecidableEq

/-- The dictionary returned by `RAGMultimodalSystem.query`. -/
structure QueryResult where
  query : String
  search_results : List SearchResult
  responses : List Response
  num_results : Nat
  num_responses : Nat
  timing : Timing
  success : Bool
  error : Option PipeError
deriving DecidableEq

/-- What one `query` call does at its boundary: either an exception escapes
to the caller, or a result dictionary is returned. -/
inductive QueryOutcome where
  | raised (e : PipeError)
  | result (r : QueryResult)
deriving DecidableEq

/-- `True` exactly on outcomes where an exception escaped the `query` call. -/
def QueryOutcome.isRaised : QueryOutcome → Bool
  | .raised _ => true
  | .result _ => false

/-- The failure dictionary built in `query`'s `except` block: empty results,
zero counts, a timing dictionary holding only `total_time`, `success: False`
and the stringified error. -/
def failureResult (q : String) (e : PipeError) (total_time : ℚ) : QueryResult :=
  { query := q
    search_results := []
    responses := []
    num_results := 0
    num_responses := 0
    timing := { search_time := none, llm_time := none, total_time := total_time }
    success := false
    error := some e }

/-- `RAGMultimodalSystem.query`: raises `ValueError` past its boundary if the
system is not initialized; otherwise starts the metrics timer iff
`self.metrics` is set, runs search / optional generation / result assembly /
metrics recording inside one `try`, and converts any exception from those
stages into the failure dictionary. Returns the outcome paired with whether
the timer was started. -/
def RAGSystem.query (sys : RAGSystem) (o : QueryOracle) (q : String)
    (k : Nat := TOP_K_RETRIEVAL) (generate_responses : Bool := true) :
    QueryOutcome × Bool :=
  if sys.is_initialized = false then
    (.raised .notInitialized, false)
  else
    -- start_time = time.time() if self.metrics else None
    let timerStarted := sys.metricsEnabled
    let elapsed : ℚ := if timerStarted then o.tTotal else 0
    let outcome :=
      match sys.search_images o k with
      | .error e => QueryOutcome.result (failureResult q e elapsed)
      | .ok search_results =>
          let genOutcome :=
            if generate_responses && !search_results.isEmpty then
              o.generate search_results
            else
              .ok []
          match genOutcome with
          | .error e => QueryOutcome.result (failureResult q e elapsed)
          | .ok responses =>
              let llm_time : ℚ :=
                if generate_responses && !search_results.isEmpty then o.tLLM else 0
              let success :=
                { query := q
                  search_results := search_results
                  responses := responses
                  num_results := search_results.length
                  num_responses := responses.length
                  timing := { search_time := some o.tSearch
                              llm_time := some llm_time
                              total_time := elapsed }
                  success := true
                  error := none : QueryResult }
              -- if self.metrics and start_time: record_query_metrics(...)
              if sys.metricsEnabled && !o.recordOk then
                QueryOutcome.result (failureResult q .metricsFailed elapsed)
              else
                QueryOutcome.result success
    (outcome, timerStarted)

/-- Errors raised by `build_index`. -/
inductive BuildError where
  /-- `ValueError("Nenhuma imagem encontrada…")`. -/
  | noImages
  /-- `ValueError("Nenhum embedding foi extraído…")`. -/
  | noEmbeddings
  /-- `AttributeError` on `self.hnsw_index` being `None`. -/
  | noIndex
  /-- an error propagated out of `HNSWIndex.add_items`. -/
  | idx (e : IndexError)
deriving DecidableEq, Repr

/-- The external boundary of one `build_index` call: the encoder's embedding
dimension, the directory scan result, the batch-encoding result (successful
embeddings with their paths), the per-image filesystem attributes
(`basename`, `dirname`, `getsize`, assembled into the metadata record for a
path and batch position), and the observed wall-clock durations. -/
structure BuildOracle where
  embedding_dim : Nat
  image_paths : List String
  embeddings : List (List ℚ)
  valid_paths : List String
  pathMeta : String → Nat → Record
  tEmbed : ℚ
  tIndex : ℚ
  tTotal : ℚ

/-- The statistics dictionary returned by `build_index`. -/
structure BuildStats where
  total_images : Nat
  successful_embeddings : Nat
  failed_embeddings : Nat
  embedding_time : ℚ
  indexing_time : ℚ
  total_time : ℚ
  embeddings_per_second : ℚ
  index_statistics : Statistics
deriving DecidableEq

/-- `RAGMultimodalSystem.build_index`: initializes components if needed,
scans for images, batch-encodes, builds one metadata record per successfully
encoded path, and adds everything to the HNSW index. The source accepts a
`force_rebuild` argument but never reads it, and never consults
`hnsw_index.is_built`: every call re-encodes and re-adds. -/
def RAGSystem.build_index (sys : RAGSystem) (o : BuildOracle)
    (force_rebuild : Bool := false) : Except BuildError (RAGSystem × BuildStats) :=
  let _ := force_rebuild
  let sys := if sys.is_initialized then sys else sys.initialize_components o.embedding_dim
  if o.image_paths.isEmpty then
    .error .noImages
  else if o.embeddings.isEmpty then
    .error .noEmbeddings
  else
    match sys.hnsw_index with
    | none => .error .noIndex
    | some idx =>
        let metadata := o.valid_paths.enum.map (fun ip => o.pathMeta ip.2 ip.1)
        match idx.add_items o.embeddings metadata with
        | .error e => .error (.idx e)
        | .ok idx' =>
            let stats :=
              { total_images := o.image_paths.length
                successful_embeddings := o.embeddings.length
                failed_embeddings := o.image_paths.length - o.embeddings.length
                embedding_time := o.tEmbed
                indexing_time := o.tIndex
                total_time := o.tTotal
                embeddings_per_second :=
                  if 0 < o.tEmbed then (o.embeddings.length : ℚ) / o.tEmbed else 0
                index_statistics := idx'.get_statistics : BuildStats }
            .ok ({ sys with hnsw_index := some idx' }, stats)

/-- Runs a sequence of `add_items` batches, collecting the ids each
successful batch assigns; `none` if any batch fails. -/
def runBatches : HNSWIndex → List (List (List ℚ) × List Record) →
    Option (HNSWIndex × List Nat)
  | idx, [] => some (idx, [])
  | idx, b :: bs =>
      match idx.add_items b.1 b.2 with
      | .error _ => none
      | .ok idx' =>
          (runBatches idx' bs).map
            (fun p => (p.1, List.range' idx.metadata.length b.1.length ++ p.2))

/-! ## Auxiliary observations on query outcomes -/

/-- A query outcome is well tagged when, if it is a returned dictionary, the
success flag and the error/timing fields agree: a success carries no error,
and a failure carries an error and only the `total_time` timing entry. -/
def QueryOutcome.wellTagged : QueryOutcome → Bool
  | .raised _ => true
  | .result r =>
      if r.success then r.error.isNone
      else r.error.isSome && r.timing.search_time.isNone && r.timing.llm_time.isNone

/-- The success flag of a returned query dictionary (`none` if the call
raised instead of returning). -/
def QueryOutcome.successFlag : QueryOutcome → Option Bool
  | .raised _ => none
  | .result r => some r.success

/-! ## Concrete instances used as witnesses -/

/-- A concrete stand-in for the external distance kernel: distance 0 to the
vector equal to the query, 2 to every other vector. -/
def demoDist (q v : List ℚ) : ℚ :=
  if q = v then 0 else 2

def demoRecordA : Record := [("image_path", "images/a.jpg")]

def demoRecordB : Record := [("image_path", "images/b.jpg")]

/-- A fresh two-dimensional index. -/
def demoIdx0 : HNSWIndex := HNSWIndex.create 2

/-- `demoIdx0` after one successful insert. -/
def demoIdxA : HNSWIndex :=
  match demoIdx0.add_items [[1, 0]] [demoRecordA] with
  | .ok idx => idx
  | .error _ => demoIdx0

/-- `demoIdxA` after a second successful insert. -/
def demoIdxB : HNSWIndex :=
  match demoIdxA.add_items [[0, 1]] [demoRecordB] with
  | .ok idx => idx
  | .error _ => demoIdxA

/-- A generator oracle that answers every ranked result successfully. -/
def demoGenerate (rs : List SearchResult) : Except PipeError (List Response) :=
  .ok (rs.map (fun _ => { response := "ok", success := true }))

/-- A query boundary where every external stage succeeds. -/
def demoQueryOracle : QueryOracle :=
  { dist := demoDist
    encode_text := .ok [1, 0]
    generate := demoGenerate
    recordOk := true
    tSearch := 0
    tLLM := 0
    tTotal := 0 }

/-- The same boundary, except that metrics recording raises. -/
def demoQueryOracleBad : QueryOracle :=
  { demoQueryOracle with recordOk := false }

/-- A built two-item index over the inner-product space. -/
def demoIdxIP : HNSWIndex :=
  match (HNSWIndex.create 2 "ip").add_items [[1, 0], [0, 1]] [demoRecordA, demoRecordB] with
  | .ok idx => idx
  | .error _ => HNSWIndex.create 2 "ip"

/-- An initialized system whose index is built and holds two items. -/
def demoSysReady : RAGSystem :=
  { is_initialized := true, hnsw_index := some demoIdxIP, metricsEnabled := true }

/-- An initialized system whose index was created but never built. -/
def demoSysNotBuilt : RAGSystem :=
  { is_initialized := true, hnsw_index := some demoIdx0, metricsEnabled := true }

/-- A system before `initialize_components`. -/
def demoSysNew : RAGSystem :=
  { is_initialized := false, hnsw_index := none, metricsEnabled := true }

/-- A build boundary: one image on disk, encoded successfully. -/
def demoBuildOracle : BuildOracle :=
  { embedding_dim := 2
    image_paths := ["images/a.jpg"]
    embeddings := [[1, 0]]
    valid_paths := ["images/a.jpg"]
    pathMeta := fun p _ => [("image_path", p)]
    tEmbed := 0
    tIndex := 0
    tTotal := 0 }

/-- `demoSysNew` after one successful `build_index` call. -/
def demoSysBuiltOnce : RAGSystem :=
  match demoSysNew.build_index demoBuildOracle false with
  | .ok p => p.1
  | .error _ => demoSysNew

/-- The filtered output of a concrete `search_images` call on the ready
system, with a configured threshold of 0. -/
def demoFiltered : List SearchResult :=
  match demoSysReady.search_images_at demoQueryOracle 0 3 with
  | .ok rs => rs
  | .error _ => []

/-- The labels and distances of a concrete `search` call on the built
index. -/
def demoSearchOut : List Nat × List ℚ :=
  match demoIdxB.search demoDist [1, 0] 2 with
  | .ok out => out
  | .error _ => ([], [])

/-- The index obtained by loading the saved copy of `demoIdxB` into a fresh
instance. -/
def demoLoaded : HNSWIndex :=
  match HNSWIndex.load_index (demoIdxB.save_index DiskState.empty) with
  | .ok idx => idx
  | .error _ => demoIdxB

/-- Two consecutive one-item insert batches. -/
def demoBatches : List (List (List ℚ) × List Record) :=
  [([[1, 0]], [demoRecordA]), ([[0, 1]], [demoRecordB])]

/-- The final index and collected ids after running `demoBatches` on the
fresh index. -/
def demoRunOut : HNSWIndex × List Nat :=
  match runBatches demoIdx0 demoBatches with
  | some p => p
  | none => (demoIdx0, [])

/-! ## Theorems -/

/-- Claim C1 (the code contradicts it): `build_index` accepts and documents a
`force_rebuild` argument but never reads it, and never consults the built
flag. On a system whose one-image index is already built, a second
`build_index` call with `force_rebuild = false` re-encodes and re-adds the
image instead of returning the existing statistics without rework: the item
count rises from 1 to 2 and a fresh id 1 is assigned. -/
theorem build_index_rebuilds_when_not_forced :
    (demoSysBuiltOnce.hnsw_index.map (fun i => i.metadata.map Prod.fst)) = some [0]
    ∧ (RAGSystem.build_index demoSysBuiltOnce demoBuildOracle false).map
        (fun p => (p.2.index_statistics.num_elements,
                   p.1.hnsw_index.map (fun i => i.metadata.map Prod.fst)))
      = .ok (2, some [0, 1]) := by
  exact ⟨rfl, rfl⟩

/-- Claim C2 (counterexample): saving is not all-or-nothing. With the
one-item index `demoIdxA` fully saved on disk, interrupting `demoIdxB`'s
save after its first write leaves `demoIdxB`'s graph blob paired with
`demoIdxA`'s metadata blob — a mismatched pair — so the interrupted state is
neither the old disk nor the new unit. -/
theorem save_index_not_atomic :
    DiskState.consistent (demoIdxA.save_index DiskState.empty) = true
    ∧ DiskState.consistent
        (runWrites (saveIndexSteps demoIdxB) 1 (demoIdxA.save_index DiskState.empty)) = false
    ∧ ¬ saveAllOrNothing demoIdxB (demoIdxA.save_index DiskState.empty) := by
  refine ⟨rfl, rfl, fun h => ?_⟩
  rcases h 1 with h | h <;> exact absurd h (by decide)

/-- Claim C2 (amended): `save_index` performs three sequential in-place
writes — graph blob, then metadata blob, then configuration descriptor —
with no staging copy, fsync, or rename. A save that runs to completion
leaves the complete, mutually consistent named unit on disk, but the state
visible after the first write pairs the new graph blob with whatever
metadata file was previously on disk. -/
theorem save_index_sequential_writes (idx : HNSWIndex) (s : DiskState)
    (hA : idx.idsAligned) :
    idx.save_index s =
      { binFile := some idx.elements
        metadataFile := some idx.metadata
        configFile := some idx.configOf }
    ∧ (idx.save_index s).consistent = true
    ∧ runWrites (saveIndexSteps idx) 1 s = { s with binFile := some idx.elements } := by
  refine ⟨rfl, ?_, rfl⟩
  simp only [HNSWIndex.save_index, runWrites, saveIndexSteps, DiskState.consistent]
  simp only [List.take, List.foldl, beq_iff_eq]
  exact hA

/-- Witness for the amended C2 theorem at the concrete two-item index. -/
theorem save_index_sequential_writes_witness :
    demoIdxB.idsAligned
    ∧ (demoIdxB.save_index DiskState.empty =
        { binFile := some demoIdxB.elements
          metadataFile := some demoIdxB.metadata
          configFile := some demoIdxB.configOf }
      ∧ (demoIdxB.save_index DiskState.empty).consistent = true
      ∧ runWrites (saveIndexSteps demoIdxB) 1 DiskState.empty =
          { DiskState.empty with binFile := some demoIdxB.elements }) :=
  ⟨by decide, save_index_sequential_writes demoIdxB DiskState.empty (by decide)⟩

/-- Claim C4 (counterexample): on an initialized system whose index is not
yet built, `query` does not fail fast before any timer starts. The metrics
timer is started (second component `true`) and the not-built error is caught
inside the stage handler and returned as a tagged failure dictionary rather
than raised. -/
theorem query_not_built_is_caught_not_fast :
    RAGSystem.query demoSysNotBuilt demoQueryOracle "query" 3 true
      = (QueryOutcome.result (failureResult "query" .notBuilt 0), true) := by
  rfl

/-- Claim C5 (counterexample): on the ready two-item system, with every
search and generation stage succeeding, flipping only whether metrics
recording raises flips the returned success flag from `true` to `false` —
the query outcome is not independent of recording failures. -/
theorem metrics_failure_flips_success_flag :
    (demoSysReady.query demoQueryOracle "q" 3 true).1.successFlag = some true
    ∧ (demoSysReady.query demoQueryOracleBad "q" 3 true).1.successFlag = some false := by
  exact ⟨by decide, by decide⟩

/-- Sanity check: the threshold literal is the rational `1 / 5 = 0.2`. -/
theorem SIMILARITY_THRESHOLD_eq : SIMILARITY_THRESHOLD = 1 / 5 := by
  rw [show SIMILARITY_THRESHOLD = Rat.mk' 1 5 from rfl, Rat.mk'_eq_divInt]
  norm_num [Rat.divInt_eq_div]

/-- Claim C4 (amended): `query` raises past its boundary exactly when the
system is uninitialized, and then no timer has started. Once initialized,
the metrics timer starts whenever metrics are enabled — before the
built-index check — and every stage failure, including the index-not-built
error, is caught and returned as a well-tagged failure dictionary (error
recorded, timing reduced to the total elapsed time), never raised. -/
theorem query_boundary_behaviour (sys : RAGSystem) (o : QueryOracle) (q : String)
    (k : Nat) (g : Bool) :
    (sys.query o q k g).1.isRaised = !sys.is_initialized
    ∧ (sys.query o q k g).2 = (sys.is_initialized && sys.metricsEnabled)
    ∧ (sys.query o q k g).1.wellTagged = true := by
  cases hinit : sys.is_initialized with
  | false =>
      simp [RAGSystem.query, hinit, QueryOutcome.isRaised, QueryOutcome.wellTagged]
  | true =>
      rcases hs : sys.search_images o k with e | rs
      · cases hm : sys.metricsEnabled <;>
          simp [RAGSystem.query, hinit, hs, hm, QueryOutcome.isRaised,
            QueryOutcome.wellTagged, failureResult]
      · rcases hgen : o.generate rs with e | resp <;>
          cases hm : sys.metricsEnabled <;>
          cases hrec : o.recordOk <;>
          cases g <;>
          rcases rs with _ | ⟨r0, rs'⟩ <;>
          simp_all [RAGSystem.query, QueryOutcome.isRaised, QueryOutcome.wellTagged,
            failureResult]

/-- Claim C5 (amended): a failure inside metrics recording never raises past
the query boundary, but it is not outcome-neutral: on an initialized system
with metrics enabled, if recording raises then `query` returns a failure
dictionary (`success = false`) even when search and generation succeeded,
because the recording exception is caught by the same blanket handler as
every other stage failure. -/
theorem metrics_failure_caught_not_neutral (sys : RAGSystem) (o : QueryOracle)
    (q : String) (k : Nat) (g : Bool)
    (hinit : sys.is_initialized = true)
    (hm : sys.metricsEnabled = true)
    (hrec : o.recordOk = false) :
    (sys.query o q k g).1.successFlag = some false := by
  rcases hs : sys.search_images o k with e | rs
  · simp [RAGSystem.query, hinit, hm, hs, QueryOutcome.successFlag, failureResult]
  · rcases hgen : o.generate rs with e | resp <;>
      cases g <;>
      rcases rs with _ | ⟨r0, rs'⟩ <;>
      simp_all [RAGSystem.query, QueryOutcome.successFlag, failureResult]

/-- Witness for the amended C5 theorem on the ready system with a recording
failure. -/
theorem metrics_failure_caught_not_neutral_witness :
    demoSysReady.is_initialized = true
    ∧ demoSysReady.metricsEnabled = true
    ∧ demoQueryOracleBad.recordOk = false
    ∧ (demoSysReady.query demoQueryOracleBad "q" 3 true).1.successFlag = some false :=
  ⟨rfl, rfl, rfl,
    metrics_failure_caught_not_neutral demoSysReady demoQueryOracleBad "q" 3 true rfl rfl rfl⟩

/-- Claim C3 (confirmed): for any built index, saving to disk and loading
into a fresh instance yields an index that returns identical search results
— same ids, in the same order, with the same distances, similarities and
metadata — for every distance kernel, query embedding and `k`, and whose
recorded statistics are unchanged by the cycle. -/
theorem save_load_roundtrip (idx : HNSWIndex) (d : List ℚ → List ℚ → ℚ)
    (q : List ℚ) (k : Nat) (hb : idx.is_built = true) :
    ∃ loaded, HNSWIndex.load_index (idx.save_index DiskState.empty) = .ok loaded
      ∧ loaded.get_search_results d q k = idx.get_search_results d q k
      ∧ loaded.get_statistics = idx.get_statistics := by
  cases idx with
  | mk dim space el maxEl md built =>
      have hb' : built = true := hb
      subst hb'
      exact ⟨_, rfl, rfl, rfl⟩

/-- Witness for C3 at the concrete built two-item index. -/
theorem save_load_roundtrip_witness :
    demoIdxB.is_built = true
    ∧ ∃ loaded, HNSWIndex.load_index (demoIdxB.save_index DiskState.empty) = .ok loaded
        ∧ loaded.get_search_results demoDist [1, 0] 2 = demoIdxB.get_search_results demoDist [1, 0] 2
        ∧ loaded.get_statistics = demoIdxB.get_statistics :=
  ⟨by decide, save_load_roundtrip demoIdxB demoDist [1, 0] 2 (by decide)⟩

/-- Claim C6 (confirmed): `search_images` filters with the strict `≥`
comparison against the configured threshold `t`: its output is exactly the
searched results whose similarity is at least `t`, so no returned result has
similarity below `t`. -/
theorem threshold_filter_exact (sys : RAGSystem) (o : QueryOracle) (t : ℚ) (k : Nat)
    (out : List SearchResult)
    (h : sys.search_images_at o t k = .ok out) :
    (∀ r ∈ out, ¬ r.similarity < t)
    ∧ ∃ idx query_embedding raw,
        sys.hnsw_index = some idx
        ∧ o.encode_text = .ok query_embedding
        ∧ idx.get_search_results o.dist query_embedding k = .ok raw
        ∧ out = raw.filter (fun r => decide (t ≤ r.similarity)) := by
  unfold RAGSystem.search_images_at at h
  split at h
  · exact absurd h (by simp)
  · split at h
    · exact absurd h (by simp)
    · next idx heq =>
        split at h
        · exact absurd h (by simp)
        · split at h
          · exact absurd h (by simp)
          · next query_embedding henc =>
              split at h
              · exact absurd h (by simp)
              · next raw hraw =>
                  simp only [Except.ok.injEq] at h
                  subst h
                  refine ⟨?_, idx, query_embedding, raw, heq, henc, hraw, rfl⟩
                  intro r hr
                  exact not_lt.mpr (of_decide_eq_true (List.mem_filter.mp hr).2)

/-- Witness for C6 on the ready inner-product system with threshold 0. -/
theorem threshold_filter_exact_witness :
    demoSysReady.search_images_at demoQueryOracle 0 3 = .ok demoFiltered
    ∧ ((∀ r ∈ demoFiltered, ¬ r.similarity < 0)
      ∧ ∃ idx query_embedding raw,
          demoSysReady.hnsw_index = some idx
          ∧ demoQueryOracle.encode_text = .ok query_embedding
          ∧ idx.get_search_results demoQueryOracle.dist query_embedding 3 = .ok raw
          ∧ demoFiltered = raw.filter (fun r => decide ((0 : ℚ) ≤ r.similarity))) :=
  ⟨rfl, threshold_filter_exact demoSysReady demoQueryOracle 0 3 demoFiltered rfl⟩

/-- Claim C9 (confirmed): inserting any batch containing an embedding whose
length differs from the index dimension fails with the dimension-mismatch
error; the raise happens before the metadata mutation and the id assignment
is derived from the unchanged `len(self.metadata)`, so a failed insertion
changes nothing and never advances the id counter. -/
theorem dimension_mismatch_rejected (idx : HNSWIndex) (embeddings : List (List ℚ))
    (metadata : List Record)
    (hlen : embeddings.length = metadata.length)
    (hbad : ∃ e ∈ embeddings, e.length ≠ idx.dimension) :
    idx.add_items embeddings metadata = .error .dimensionMismatch := by
  obtain ⟨e, he, hne⟩ := hbad
  have hex : ∃ x ∈ embeddings, ¬x.length = idx.dimension := ⟨e, he, hne⟩
  simp [HNSWIndex.add_items, hnswAddItems, hlen, hex]

/-- Witness for C9: a three-dimensional embedding rejected by the
two-dimensional index. -/
theorem dimension_mismatch_rejected_witness :
    ([[1, 2, 3]] : List (List ℚ)).length = [demoRecordA].length
    ∧ (∃ e ∈ ([[1, 2, 3]] : List (List ℚ)), e.length ≠ demoIdxB.dimension)
    ∧ demoIdxB.add_items [[1, 2, 3]] [demoRecordA] = .error .dimensionMismatch :=
  ⟨rfl, by decide,
    dimension_mismatch_rejected demoIdxB [[1, 2, 3]] [demoRecordA] rfl (by decide)⟩

/-- Claim C10 (confirmed): `load_index` passes `max_elements =
config['num_elements']` to the native load, so a loaded index's capacity is
the persisted element count rather than the original `HNSW_MAX_ELEMENTS`;
consequently every subsequent insert of at least one (well-shaped) embedding
into a loaded index fails with the capacity error, and a loaded index can
never grow. -/
theorem loaded_index_cannot_grow (idx loaded : HNSWIndex)
    (embeddings : List (List ℚ)) (metadata : List Record)
    (hA : idx.idsAligned)
    (hload : HNSWIndex.load_index (idx.save_index DiskState.empty) = .ok loaded)
    (hne : embeddings ≠ [])
    (hlen : embeddings.length = metadata.length)
    (hdim : ∀ e ∈ embeddings, e.length = loaded.dimension) :
    loaded.maxElements = loaded.metadata.length
    ∧ loaded.add_items embeddings metadata = .error .capacityExceeded := by
  have hloaded : loaded =
      { dimension := idx.dimension
        space := idx.space
        elements := idx.elements
        maxElements := idx.metadata.length
        metadata := idx.metadata
        is_built := true } := by
    have hld : HNSWIndex.load_index (idx.save_index DiskState.empty) =
        .ok { dimension := idx.dimension
              space := idx.space
              elements := idx.elements
              maxElements := idx.metadata.length
              metadata := idx.metadata
              is_built := true } := rfl
    rw [hld] at hload
    simpa using hload.symm
  subst hloaded
  refine ⟨rfl, ?_⟩
  have helen : idx.elements.length = idx.metadata.length := by
    simpa using congrArg List.length hA
  have hdim' : ∀ e ∈ embeddings, e.length = idx.dimension := by
    simpa using hdim
  have hnex : ¬ ∃ x ∈ embeddings, ¬x.length = idx.dimension := by
    push_neg
    exact hdim'
  have hpos : 0 < embeddings.length := List.length_pos.mpr hne
  have hcap : idx.metadata.length < idx.elements.length + metadata.length := by
    omega
  simp [HNSWIndex.add_items, hnswAddItems, hlen, hnex, hcap]

/-- Witness for C10: after a save/load round trip of the two-item index,
inserting one more well-shaped item fails with the capacity error. -/
theorem loaded_index_cannot_grow_witness :
    demoIdxB.idsAligned
    ∧ HNSWIndex.load_index (demoIdxB.save_index DiskState.empty) = .ok demoLoaded
    ∧ ([[2, 2]] : List (List ℚ)) ≠ []
    ∧ ([[2, 2]] : List (List ℚ)).length = [demoRecordA].length
    ∧ (∀ e ∈ ([[2, 2]] : List (List ℚ)), e.length = demoLoaded.dimension)
    ∧ (demoLoaded.maxElements = demoLoaded.metadata.length
      ∧ demoLoaded.add_items [[2, 2]] [demoRecordA] = .error .capacityExceeded) :=
  ⟨by decide, rfl, by decide, rfl, by decide,
    loaded_index_cannot_grow demoIdxB demoLoaded [[2, 2]] [demoRecordA]
      (by decide) rfl (by decide) rfl (by decide)⟩

/-- Claim C7 (confirmed, against the spec-modelled `knn_query`): every
successful `search(q, k)` call returns at most `k` labels, ranked in
ascending distance order with ties broken by smaller id, and — on an index
whose element and metadata id spaces are in lockstep — every returned label
is a key of the metadata store. -/
theorem search_results_valid (d : List ℚ → List ℚ → ℚ) (idx : HNSWIndex)
    (q : List ℚ) (k : Nat) (labels : List Nat) (distances : List ℚ)
    (hA : idx.idsAligned)
    (h : idx.search d q k = .ok (labels, distances)) :
    labels.length ≤ k
    ∧ List.Pairwise (fun a b : Nat × ℚ => a.2 < b.2 ∨ (a.2 = b.2 ∧ a.1 ≤ b.1))
        (labels.zip distances)
    ∧ ∀ l ∈ labels, l ∈ idx.metadata.map Prod.fst := by
  unfold HNSWIndex.search knn_query at h
  split at h
  · exact absurd h (by simp)
  · split at h
    · exact absurd h (by simp)
    · simp only [Except.ok.injEq, Prod.mk.injEq] at h
      obtain ⟨hl, hd⟩ := h
      subst hl
      subst hd
      refine ⟨?_, ?_, ?_⟩
      · simp only [List.length_map, List.length_take]
        exact min_le_left _ _
      · have hsorted : List.Pairwise (searchLE d q)
            (List.insertionSort (searchLE d q) idx.elements) :=
          List.sorted_insertionSort _ _
        have htake : List.Pairwise (searchLE d q)
            ((List.insertionSort (searchLE d q) idx.elements).take k) :=
          hsorted.sublist (List.take_sublist k _)
        rw [List.zip_map']
        exact htake.map _ (fun a b hab => hab)
      · intro l hl
        obtain ⟨p, hp, rfl⟩ := List.mem_map.mp hl
        have hmem : p ∈ idx.elements :=
          (List.perm_insertionSort (searchLE d q) idx.elements).mem_iff.mp
            ((List.take_sublist k _).subset hp)
        rw [← hA]
        exact List.mem_map.mpr ⟨p, hmem, rfl⟩

/-- Witness for C7 at a concrete two-item search. -/
theorem search_results_valid_witness :
    demoIdxB.idsAligned
    ∧ demoIdxB.search demoDist [1, 0] 2 = .ok (demoSearchOut.1, demoSearchOut.2)
    ∧ (demoSearchOut.1.length ≤ 2
      ∧ List.Pairwise (fun a b : Nat × ℚ => a.2 < b.2 ∨ (a.2 = b.2 ∧ a.1 ≤ b.1))
          (demoSearchOut.1.zip demoSearchOut.2)
      ∧ ∀ l ∈ demoSearchOut.1, l ∈ demoIdxB.metadata.map Prod.fst) :=
  ⟨by decide, rfl,
    search_results_valid demoDist demoIdxB [1, 0] 2 demoSearchOut.1 demoSearchOut.2
      (by decide) rfl⟩

/-- Structure of a successful `add_items` call: the metadata store is
extended, in place, by the freshly assigned consecutive ids paired with the
new records. -/
theorem add_items_ok_metadata {idx idx' : HNSWIndex} {embeddings : List (List ℚ)}
    {metadata : List Record}
    (h : idx.add_items embeddings metadata = .ok idx') :
    idx'.metadata
      = idx.metadata ++ (List.range' idx.metadata.length embeddings.length).zip metadata
    ∧ idx'.metadata.length = idx.metadata.length + embeddings.length := by
  simp only [HNSWIndex.add_items] at h
  split at h
  · exact absurd h (by simp)
  · next hlen =>
      have hlen' : embeddings.length = metadata.length := not_not.mp hlen
      split at h
      · exact absurd h (by simp)
      · simp only [Except.ok.injEq] at h
        subst h
        refine ⟨rfl, ?_⟩
        simp [List.length_append, List.length_zip, List.length_range', hlen']

/-- Claim C8 (confirmed): across any sequence of successful inserts, the
assigned ids are exactly the consecutive range starting at the current
metadata count — hence strictly increasing and never repeating — and a
save/load cycle preserves the metadata store verbatim, so the next id after
a load resumes from the stored count. -/
theorem ids_monotonic (idx : HNSWIndex) (batches : List (List (List ℚ) × List Record))
    (idx' : HNSWIndex) (ids : List Nat)
    (h : runBatches idx batches = some (idx', ids)) :
    ids = List.range' idx.metadata.length ids.length
    ∧ idx'.metadata.length = idx.metadata.length + ids.length
    ∧ List.Chain' (· < ·) ids
    ∧ ids.Nodup
    ∧ (HNSWIndex.load_index (idx'.save_index DiskState.empty)).map HNSWIndex.metadata
        = .ok idx'.metadata := by
  have main : ids = List.range' idx.metadata.length ids.length
      ∧ idx'.metadata.length = idx.metadata.length + ids.length := by
    induction batches generalizing idx ids with
    | nil =>
        simp only [runBatches, Option.some.injEq, Prod.mk.injEq] at h
        obtain ⟨h1, h2⟩ := h
        subst h1
        subst h2
        simp
    | cons b bs ih =>
        simp only [runBatches] at h
        split at h
        · exact absurd h (by simp)
        · next idx1 heq =>
            rw [Option.map_eq_some'] at h
            obtain ⟨p, hp, hpe⟩ := h
            obtain ⟨p1, p2⟩ := p
            simp only [Prod.mk.injEq] at hpe
            obtain ⟨hpe1, hpe2⟩ := hpe
            subst hpe1
            subst hpe2
            obtain ⟨_, hlen1⟩ := add_items_ok_metadata heq
            obtain ⟨hrec, hreclen⟩ := ih idx1 p2 hp
            rw [hlen1] at hrec
            constructor
            · rw [hrec, List.length_append, List.length_range', List.length_range']
              have hap := List.range'_append idx.metadata.length b.1.length p2.length 1
              simp only [one_mul] at hap
              rw [hap]
              congr 1
              omega
            · simp only [List.length_append, List.length_range']
              omega
  obtain ⟨h1, h2⟩ := main
  refine ⟨h1, h2, ?_, ?_, rfl⟩
  · rw [h1]
    exact (List.pairwise_lt_range' _ _).chain'
  · rw [h1]
    exact List.nodup_range' _ _

/-- Witness for C8: two consecutive one-item batches on the fresh index
assign ids 0 and 1. -/
theorem ids_monotonic_witness :
    runBatches demoIdx0 demoBatches = some (demoRunOut.1, demoRunOut.2)
    ∧ (demoRunOut.2 = List.range' demoIdx0.metadata.length demoRunOut.2.length
      ∧ demoRunOut.1.metadata.length = demoIdx0.metadata.length + demoRunOut.2.length
      ∧ List.Chain' (· < ·) demoRunOut.2
      ∧ demoRunOut.2.Nodup
      ∧ (HNSWIndex.load_index (demoRunOut.1.save_index DiskState.empty)).map HNSWIndex.metadata
          = .ok demoRunOut.1.metadata) :=
  ⟨rfl, ids_monotonic demoIdx0 demoBatches demoRunOut.1 demoRunOut.2 rfl⟩

end RAG
